import Mathlib

/-
Verification of the certification-deal discovery and matching pipeline.

The definitions below are a shallow embedding of the Python sources:
  - src/lambda/agent_tools/web_discovery.py  (discovery, extraction, scoring)
  - src/lambda/matcher/matcher.py            (offer/profile matching)
  - src/lambda/scraper/scraper.py            (scraping, offer ids, storage)

Modelling conventions:
  - Python strings are Lean String (lists of characters); lowercasing is
    ASCII lowercasing, which agrees with Python on all inputs considered.
  - Python float arithmetic on score constants is modelled over the
    rationals; all constants and reachable sums are such that every
    comparison and clamp performed by the code gives the same result
    over the rationals as over IEEE doubles.
  - Ambient effects are explicit parameters: the current calendar year,
    the current timestamp string, and the per-process string hash used by
    the built-in hash() are passed in as arguments.
  - The external AI call and its JSON parsing are modelled by an explicit
    outcome value (invocation error / unparseable output / parsed value),
    mirroring the try/except structure of the code.
  - urlparse can raise ValueError on bracket-malformed URLs; netloc
    extraction is therefore Option-valued, the confidence scorer (which
    has no try/except) propagates the failure as none, the source-name
    extractor catches it, and the per-item loop skips the failed item.
  - The DynamoDB offers table (partition key offer_id, see the CDK stack)
    is modelled as an association list with overwrite-by-key put.
-/

/-- Python ASCII lowercasing of a string, character by character. -/
def lowerStr (s : String) : String :=
  String.mk (s.data.map Char.toLower)

/-- Does the list start with the given pattern (character-exact)? -/
def startsWithList (pat : List Char) (text : List Char) : Bool :=
  match pat, text with
  | [], _ => true
  | _ :: _, [] => false
  | a :: as, b :: bs => a == b && startsWithList as bs

/-- Does the list start with the given pattern, case-insensitively (ASCII)? -/
def startsWithCI (pat : List Char) (text : List Char) : Bool :=
  match pat, text with
  | [], _ => true
  | _ :: _, [] => false
  | a :: as, b :: bs => a.toLower == b.toLower && startsWithCI as bs

/-- Substring containment on character lists; models the Python `pat in text`
test (an empty pattern is contained in every string). -/
def containsList (pat : List Char) : List Char → Bool
  | [] => pat.isEmpty
  | c :: rest => startsWithList pat (c :: rest) || containsList pat rest

/-- Models the Python expression `pat in text` for strings. -/
def strContains (text pat : String) : Bool :=
  containsList pat.data text.data

/-- The whitespace characters matched by Python str.strip and the regex
class backslash-s (ASCII fragment). -/
def isPySpace (c : Char) : Bool :=
  c == ' ' || c == '\t' || c == '\n' || c == '\r' || c == '\x0b' || c == '\x0c'

/-- Python str.strip(): remove leading and trailing whitespace. -/
def pyStrip (s : String) : String :=
  String.mk (((s.data.dropWhile isPySpace).reverse.dropWhile isPySpace).reverse)

/-- Longest leading run of decimal digits. -/
def takeDigits : List Char → List Char
  | [] => []
  | c :: cs => if c.isDigit then c :: takeDigits cs else []

/-- Remainder after the longest leading run of decimal digits. -/
def dropDigits : List Char → List Char
  | [] => []
  | c :: cs => if c.isDigit then dropDigits cs else c :: cs

/-- Leftmost match of the regex `(\d+)%`: scanning left to right, the first
maximal digit run immediately followed by a percent sign; returns the
captured digits.  Models the Python regex search for digits followed by a
percent sign. -/
def findPct : List Char → Option (List Char)
  | [] => none
  | c :: cs =>
    if c.isDigit then
      match dropDigits (c :: cs) with
      | '%' :: _ => some (takeDigits (c :: cs))
      | _ => findPct cs
    else findPct cs

/-- The keyword list of has_deal_indicators (web_discovery.py). -/
def deal_keywords : List String :=
  ["challenge", "discount", "voucher", "free", "promotion", "offer",
   "deal", "coupon", "save", "promo", "special", "limited time",
   "certification challenge", "exam voucher", "free exam"]

/-- has_deal_indicators (web_discovery.py): any deal keyword occurs in the
lowercased combined title+snippet text. -/
def has_deal_indicators (title snippet : String) : Bool :=
  let text := lowerStr (title ++ " " ++ snippet)
  deal_keywords.any (fun keyword => strContains text keyword)

/-- extract_discount_type (web_discovery.py).  Note the percent branch: when
the text contains a percent sign but the regex `(\d+)%` finds nothing, the
if/elif chain is exited and the function returns the final default. -/
def extract_discount_type (title snippet : String) : String :=
  let text := lowerStr (title ++ " " ++ snippet)
  if strContains text "free" || strContains text "complimentary" then "Free"
  else if strContains text "voucher" then "Voucher"
  else if strContains text "%" then
    match findPct text.data with
    | some ds => String.mk ds ++ "% Off"
    | none => "Special Offer"
  else if strContains text "discount" then "Discount"
  else if strContains text "challenge" then "Challenge Reward"
  else "Special Offer"

/-- extract_eligibility (web_discovery.py). -/
def extract_eligibility (title snippet : String) : String :=
  let text := lowerStr (title ++ " " ++ snippet)
  if strContains text "student" then "Students"
  else if strContains text "employee" then "Employees"
  else if strContains text "partner" then "Partners"
  else if strContains text "challenge" then "Challenge Participants"
  else "General Public"

/-- classify_deal_type (web_discovery.py). -/
def classify_deal_type (title snippet : String) : String :=
  let text := lowerStr (title ++ " " ++ snippet)
  if strContains text "challenge" then "Certification Challenge"
  else if strContains text "voucher" then "Exam Voucher"
  else if strContains text "free" then "Free Offer"
  else if strContains text "discount" then "Discount Deal"
  else if strContains text "promotion" then "Promotional Offer"
  else "General Deal"

/-- Characters allowed in a URL scheme by urllib.parse (letters, digits,
plus, minus, dot). -/
def isSchemeChar (c : Char) : Bool :=
  c.isAlphanum || c == '+' || c == '-' || c == '.'

/-- Split a character list at its first colon: (part before, part after). -/
def splitAtColon : List Char → Option (List Char × List Char)
  | [] => none
  | c :: cs =>
    if c == ':' then some ([], cs)
    else
      match splitAtColon cs with
      | some (a, b) => some (c :: a, b)
      | none => none

/-- Models the scheme-stripping step of urllib.parse.urlsplit: when the text
before the first colon is a nonempty run of scheme characters starting with
a letter, the scheme and the colon are removed. -/
def stripScheme (s : List Char) : List Char :=
  match splitAtColon s with
  | some (pre, rest) =>
    match pre with
    | [] => s
    | c :: _ => if c.isAlpha && pre.all isSchemeChar then rest else s
  | none => s

/-- The raw network-location substring urlsplit scans out of a URL: after
the scheme, a leading double slash introduces the network location, which
extends to the next slash, question mark or hash; otherwise it is empty. -/
def rawNetloc (url : String) : String :=
  match stripScheme url.data with
  | '/' :: '/' :: r =>
    String.mk (r.takeWhile (fun c => !(c == '/' || c == '?' || c == '#')))
  | _ => ""

/-- Models urlparse(url).netloc together with its failure: urlsplit raises
ValueError (Invalid IPv6 URL) when the scanned netloc contains an opening
square bracket without a closing one or vice versa, modelled here as none.
CPython 3.11 — the pinned Lambda runtime — additionally validates the host
inside balanced brackets and can raise there as well; every theorem below
evaluates this model only on bracket-free netlocs, where all runtimes agree
on success, or on unbalanced ones, where all runtimes agree on the error. -/
def netlocOf (url : String) : Option String :=
  let n := rawNetloc url
  if (n.data.contains '[' && !(n.data.contains ']'))
      || (n.data.contains ']' && !(n.data.contains '[')) then
    none
  else
    some n

/-- Worker for Python str.replace: the counter records how many characters
of a just-replaced occurrence remain to be skipped. -/
def replaceAux (pat rep : List Char) : Nat → List Char → List Char
  | _, [] => []
  | Nat.succ k, _ :: cs => replaceAux pat rep k cs
  | 0, c :: cs =>
    if startsWithList pat (c :: cs) && !pat.isEmpty then
      rep ++ replaceAux pat rep (pat.length - 1) cs
    else
      c :: replaceAux pat rep 0 cs

/-- Python str.replace(pat, rep): replace every non-overlapping occurrence
of pat, scanning left to right (pat assumed nonempty, as in the source). -/
def replaceList (pat rep : List Char) (l : List Char) : List Char :=
  replaceAux pat rep 0 l

/-- Python str.replace on strings. -/
def strReplace (s pat rep : String) : String :=
  String.mk (replaceList pat.data rep.data s.data)

/-- Python str.title() on ASCII text: a letter is uppercased when the
preceding character is not a letter, lowercased otherwise. -/
def pyTitleAux (prevAlpha : Bool) : List Char → List Char
  | [] => []
  | c :: cs =>
    (if c.isAlpha then (if prevAlpha then c.toLower else c.toUpper) else c)
      :: pyTitleAux c.isAlpha cs

/-- Python str.title() on strings. -/
def pyTitle (s : String) : String :=
  String.mk (pyTitleAux false s.data)

/-- extract_source_name (web_discovery.py): map the URL domain to a friendly
label via the fixed table, else title-case the domain with "www." removed;
when urlparse raises, the bare except branch returns "External Source". -/
def extract_source_name (url : String) : String :=
  match netlocOf url with
  | none => "External Source"
  | some n =>
  let domain := lowerStr n
  if strContains domain "aws.amazon.com" || strContains domain "awscloud.com" then
    "AWS Official"
  else if strContains domain "microsoft.com" || strContains domain "azure.com" then
    "Microsoft Official"
  else if strContains domain "cloud.google.com" then
    "Google Cloud Official"
  else if strContains domain "databricks.com" then
    "Databricks Official"
  else if strContains domain "salesforce.com" || strContains domain "trailhead" then
    "Salesforce Official"
  else
    pyTitle (strReplace domain "www." "")

/-- The official-domain table of calculate_confidence_score
(web_discovery.py); unknown providers map to the empty list, as with
dict.get(provider, []). -/
def official_domains (provider : String) : List String :=
  if provider == "AWS" then ["aws.amazon.com", "awscloud.com"]
  else if provider == "AZURE" then ["microsoft.com", "azure.com"]
  else if provider == "GCP" then ["cloud.google.com"]
  else if provider == "SALESFORCE" then ["salesforce.com", "trailhead.salesforce.com"]
  else if provider == "DATABRICKS" then ["databricks.com"]
  else []

/-- The deal-keyword list of calculate_confidence_score (web_discovery.py). -/
def conf_deal_keywords : List String :=
  ["challenge", "voucher", "free", "discount", "promotion"]

/-- calculate_confidence_score (web_discovery.py).  The current calendar
year — datetime.now().year in the source — is an explicit parameter; score
arithmetic is modelled over the rationals.  The function calls urlparse
with no try/except, so a ValueError on the link escapes the function: that
outcome is none. -/
def calculate_confidence_score (year : Nat) (title snippet link provider : String) :
    Option ℚ :=
  let text := lowerStr (title ++ " " ++ snippet)
  let score0 : ℚ := 0
  let score1 := if title ≠ "" ∧ snippet ≠ "" then score0 + 0.3 else score0
  match netlocOf link with
  | none => none
  | some n =>
  let domain := lowerStr n
  let score2 :=
    if (official_domains provider).any (fun official => strContains domain official) then
      score1 + 0.3
    else score1
  let score3 :=
    conf_deal_keywords.foldl
      (fun sc keyword => if strContains text keyword then sc + 0.1 else sc) score2
  let score4 := if strContains text (toString year) then score3 + 0.2 else score3
  some (min score4 1)

/-- Characters of the regex class [A-Za-z\s]. -/
def isAlphaSpace (c : Char) : Bool :=
  (c.isUpper || c.isLower) || isPySpace c

/-- The certification-name regular expressions of extract_certification_name
(web_discovery.py), as a small pattern language:
  - lit s: a literal capture such as (Solutions Architect), searched
    case-insensitively;
  - presuf pre optW sufs: the shape PRE\s+(?:OPTW\s+)?([A-Za-z\s]+(?:S1|…|Sk)),
    e.g. AWS\s+(?:Certified\s+)?([A-Za-z\s]+(?:Associate|…|Practitioner));
  - azNum: the pattern (AZ-\d+). -/
inductive CertPat where
  | lit (s : String)
  | presuf (pre : String) (optW : Option String) (sufs : List String)
  | azNum
deriving Repr

/-- The provider→pattern-list table of extract_certification_name
(web_discovery.py); unknown providers map to the empty list. -/
def cert_patterns (provider : String) : List CertPat :=
  if provider == "AWS" then
    [CertPat.presuf "AWS" (some "Certified")
       ["Associate", "Professional", "Specialty", "Practitioner"],
     CertPat.lit "AI Practitioner",
     CertPat.lit "Solutions Architect",
     CertPat.lit "Developer Associate",
     CertPat.lit "SysOps Administrator"]
  else if provider == "AZURE" then
    [CertPat.presuf "Azure" none ["Associate", "Expert", "Fundamentals"],
     CertPat.azNum,
     CertPat.presuf "Microsoft" none ["Associate", "Expert"]]
  else if provider == "GCP" then
    [CertPat.presuf "Google Cloud" none ["Associate", "Professional"],
     CertPat.lit "Cloud Engineer",
     CertPat.lit "Cloud Architect"]
  else if provider == "SALESFORCE" then
    [CertPat.presuf "Salesforce" none ["Administrator", "Developer", "Consultant"],
     CertPat.lit "Platform Developer",
     CertPat.lit "System Administrator"]
  else if provider == "DATABRICKS" then
    [CertPat.presuf "Databricks" none ["Associate", "Professional"],
     CertPat.lit "Data Engineer",
     CertPat.lit "Machine Learning"]
  else []

/-- Leftmost case-insensitive occurrence of a literal pattern; the capture is
the original-case slice of the text, as re.IGNORECASE returns it. -/
def searchLitCI (pat : List Char) : List Char → Option (List Char)
  | [] => if pat.isEmpty then some [] else none
  | c :: cs =>
    if startsWithCI pat (c :: cs) then some (List.take pat.length (c :: cs))
    else searchLitCI pat cs

/-- Match (AZ-\d+) at the head of the text: the literal AZ- (any case) then a
maximal nonempty digit run; capture is the matched slice. -/
def matchAzAt (xs : List Char) : Option (List Char) :=
  if startsWithCI ['a', 'z', '-'] xs then
    let ds := takeDigits (List.drop 3 xs)
    if ds.isEmpty then none else some (List.take 3 xs ++ ds)
  else none

/-- Leftmost match of (AZ-\d+). -/
def searchAz : List Char → Option (List Char)
  | [] => none
  | c :: cs =>
    match matchAzAt (c :: cs) with
    | some r => some r
    | none => searchAz cs

/-- First suffix alternative (in alternation order) matching
case-insensitively at offset k of the text, provided the first k characters
all lie in [A-Za-z\s]. -/
def sufAt (sufs : List (List Char)) (xs : List Char) (k : Nat) : Option (List Char) :=
  if (List.take k xs).all isAlphaSpace && (List.take k xs).length == k then
    sufs.findSome? (fun s => if startsWithCI s (List.drop k xs) then some s else none)
  else none

/-- Backtracking for the group ([A-Za-z\s]+(?:S1|…|Sk)): the greedy engine
tries the longest [A-Za-z\s]+ part first, shrinking until a suffix
alternative matches right after it; k counts down from the maximal run
length.  The capture is the part plus the suffix. -/
def groupTry (sufs : List (List Char)) (xs : List Char) : Nat → Option (List Char)
  | 0 => none
  | Nat.succ k =>
    match sufAt sufs xs (Nat.succ k) with
    | some s => some (List.take (Nat.succ k + s.length) xs)
    | none => groupTry sufs xs k

/-- Match the capture group ([A-Za-z\s]+(?:S1|…|Sk)) at the head of the
text. -/
def groupMatch (sufs : List (List Char)) (xs : List Char) : Option (List Char) :=
  groupTry sufs xs (xs.takeWhile isAlphaSpace).length

/-- Match PRE\s+(?:OPTW\s+)?(GROUP) at the head of the text.  The optional
word is greedy: the engine first tries to consume it (when present with
trailing whitespace) and backtracks to the shorter alternative if the group
then fails. -/
def matchPresufAt (pre : List Char) (optW : Option (List Char))
    (sufs : List (List Char)) (xs : List Char) : Option (List Char) :=
  if startsWithCI pre xs then
    let r1 := List.drop pre.length xs
    if (r1.takeWhile isPySpace).isEmpty then none
    else
      let r2 := r1.dropWhile isPySpace
      match optW with
      | some w =>
        if startsWithCI w r2 then
          let r3 := List.drop w.length r2
          if (r3.takeWhile isPySpace).isEmpty then groupMatch sufs r2
          else
            match groupMatch sufs (r3.dropWhile isPySpace) with
            | some g => some g
            | none => groupMatch sufs r2
        else groupMatch sufs r2
      | none => groupMatch sufs r2
  else none

/-- Leftmost match of a presuf pattern. -/
def searchPresuf (pre : List Char) (optW : Option (List Char))
    (sufs : List (List Char)) : List Char → Option (List Char)
  | [] => none
  | c :: cs =>
    match matchPresufAt pre optW sufs (c :: cs) with
    | some r => some r
    | none => searchPresuf pre optW sufs cs

/-- Run one certification pattern against the text (re.search with
re.IGNORECASE), returning the captured group. -/
def runCertPat (p : CertPat) (text : String) : Option String :=
  match p with
  | CertPat.lit s => Option.map String.mk (searchLitCI s.data text.data)
  | CertPat.presuf pre optW sufs =>
    Option.map String.mk
      (searchPresuf pre.data (Option.map String.data optW) (sufs.map String.data) text.data)
  | CertPat.azNum => Option.map String.mk (searchAz text.data)

/-- extract_certification_name (web_discovery.py): provider-specific
patterns tried in order, first match wins (stripped); otherwise the default
of the provider name followed by the word Certification. -/
def extract_certification_name (title snippet provider : String) : String :=
  let text := title ++ " " ++ snippet
  match (cert_patterns provider).findSome? (fun p => runCertPat p text) with
  | some m => pyStrip m
  | none => provider ++ " Certification"

/-- UTF-8 encoding of one character, as Python str.encode() produces it. -/
def utf8Bytes (c : Char) : List Nat :=
  let n := c.toNat
  if n < 128 then [n]
  else if n < 2048 then [192 + n / 64, 128 + n % 64]
  else if n < 65536 then [224 + n / 4096, 128 + (n / 64) % 64, 128 + n % 64]
  else [240 + n / 262144, 128 + (n / 4096) % 64, 128 + (n / 64) % 64, 128 + n % 64]

/-- UTF-8 byte sequence of a string (Python s.encode()). -/
def strBytes (s : String) : List Nat :=
  s.data.flatMap utf8Bytes

/-- The MD5 per-round left-rotation amounts. -/
def md5S : List Nat :=
  [7, 12, 17, 22, 7, 12, 17, 22, 7, 12, 17, 22, 7, 12, 17, 22,
   5, 9, 14, 20, 5, 9, 14, 20, 5, 9, 14, 20, 5, 9, 14, 20,
   4, 11, 16, 23, 4, 11, 16, 23, 4, 11, 16, 23, 4, 11, 16, 23,
   6, 10, 15, 21, 6, 10, 15, 21, 6, 10, 15, 21, 6, 10, 15, 21]

/-- The MD5 sine-derived constant table. -/
def md5K : List Nat :=
  [3614090360, 3905402710, 606105819, 3250441966,
   4118548399, 1200080426, 2821735955, 4249261313,
   1770035416, 2336552879, 4294925233, 2304563134,
   1804603682, 4254626195, 2792965006, 1236535329,
   4129170786, 3225465664, 643717713, 3921069994,
   3593408605, 38016083, 3634488961, 3889429448,
   568446438, 3275163606, 4107603335, 1163531501,
   2850285829, 4243563512, 1735328473, 2368359562,
   4294588738, 2272392833, 1839030562, 4259657740,
   2763975236, 1272893353, 4139469664, 3200236656,
   681279174, 3936430074, 3572445317, 76029189,
   3654602809, 3873151461, 530742520, 3299628645,
   4096336452, 1126891415, 2878612391, 4237533241,
   1700485571, 2399980690, 4293915773, 2240044497,
   1873313359, 4264355552, 2734768916, 1309151649,
   4149444226, 3174756917, 718787259, 3951481745]

/-- Bitwise complement on 32 bits (arguments kept below 2^32). -/
def not32 (x : Nat) : Nat :=
  4294967295 - x % 4294967296

/-- Left rotation on 32 bits. -/
def rotl32 (x s : Nat) : Nat :=
  (x * 2 ^ s + x / 2 ^ (32 - s)) % 4294967296

/-- Little-endian word of a byte list at word index g. -/
def leWord (bs : List Nat) (g : Nat) : Nat :=
  bs.getD (4 * g) 0 + 256 * bs.getD (4 * g + 1) 0
    + 65536 * bs.getD (4 * g + 2) 0 + 16777216 * bs.getD (4 * g + 3) 0

/-- One step of the MD5 compression function. -/
def md5Step (M : List Nat) (st : Nat × Nat × Nat × Nat) (i : Nat) :
    Nat × Nat × Nat × Nat :=
  let a := st.1
  let b := st.2.1
  let c := st.2.2.1
  let d := st.2.2.2
  let fg : Nat × Nat :=
    if i < 16 then (Nat.lor (Nat.land b c) (Nat.land (not32 b) d), i)
    else if i < 32 then (Nat.lor (Nat.land d b) (Nat.land (not32 d) c), (5 * i + 1) % 16)
    else if i < 48 then (Nat.xor (Nat.xor b c) d, (3 * i + 5) % 16)
    else (Nat.xor c (Nat.lor b (not32 d)), (7 * i) % 16)
  let t := (fg.1 + a + md5K.getD i 0 + leWord M fg.2) % 4294967296
  (d, (b + rotl32 t (md5S.getD i 0)) % 4294967296, b, c)

/-- MD5 compression of one 64-byte block. -/
def md5Block (st : Nat × Nat × Nat × Nat) (M : List Nat) : Nat × Nat × Nat × Nat :=
  let r := (List.range 64).foldl (md5Step M) st
  ((st.1 + r.1) % 4294967296, (st.2.1 + r.2.1) % 4294967296,
   (st.2.2.1 + r.2.2.1) % 4294967296, (st.2.2.2 + r.2.2.2) % 4294967296)

/-- Little-endian encoding of a value on n bytes. -/
def leBytes : Nat → Nat → List Nat
  | 0, _ => []
  | Nat.succ n, v => v % 256 :: leBytes n (v / 256)

/-- MD5 message padding: 0x80, zeros to 56 mod 64, 8-byte bit length. -/
def md5Pad (msg : List Nat) : List Nat :=
  let len := msg.length
  msg ++ [128] ++ List.replicate ((55 + 64 - len % 64) % 64) 0
    ++ leBytes 8 ((len * 8) % 18446744073709551616)

/-- Split a byte list into 64-byte chunks. -/
def chunk64 (l : List Nat) : List (List Nat) :=
  if l.isEmpty then [] else List.take 64 l :: chunk64 (List.drop 64 l)
termination_by l.length
decreasing_by
  rename_i h
  rw [List.length_drop]
  have hl : 0 < l.length := by
    cases l
    · simp at h
    · simp
  omega

/-- The 16 MD5 digest bytes of a message. -/
def md5Bytes (msg : List Nat) : List Nat :=
  let st := (chunk64 (md5Pad msg)).foldl md5Block (1732584193, 4023233417, 2562383102, 271733878)
  leBytes 4 st.1 ++ leBytes 4 st.2.1 ++ leBytes 4 st.2.2.1 ++ leBytes 4 st.2.2.2

/-- Lowercase hex digit. -/
def hexDigit (n : Nat) : Char :=
  if n < 10 then Char.ofNat (48 + n) else Char.ofNat (87 + n)

/-- Models hashlib.md5(s.encode()).hexdigest(). -/
def md5Hex (s : String) : String :=
  String.mk ((md5Bytes (strBytes s)).flatMap (fun b => [hexDigit (b / 16), hexDigit (b % 16)]))

/-- Raw offer dictionary built by the extract_*_offers functions
(scraper.py): provider, source URL, stripped raw text, discovery
timestamp. -/
structure RawOffer where
  provider : String
  source_url : String
  raw_text : String
  discovered_at : String
deriving DecidableEq, Repr

/-- generate_offer_id (scraper.py): the MD5 hex digest of
provider + raw_text + source_url. -/
def generate_offer_id (offer : RawOffer) : String :=
  md5Hex (offer.provider ++ offer.raw_text ++ offer.source_url)

/-- Outcome of the external AI call followed by JSON parsing of its text:
the invocation may raise (invokeError), the returned text may fail
json.loads (parseError), or a structured value is obtained. -/
inductive AIOutcome (α : Type) where
  | invokeError
  | parseError
  | ok (a : α)
deriving DecidableEq, Repr

/-- The structured fields requested from the AI by process_offer_with_ai
(scraper.py). -/
structure StructuredFields where
  discount : String
  eligibility : String
  expiry : String
  cert_type : String
  cert_name : String
  geo_restrictions : String
  confidence : ℚ
deriving DecidableEq, Repr

/-- The processed offer object assembled by process_offer_with_ai
(scraper.py). -/
structure ProcessedOffer where
  offer_id : String
  provider : String
  source_url : String
  raw_text : String
  discovered_at : String
  processed_at : String
  fields : StructuredFields
deriving DecidableEq, Repr

/-- process_offer_with_ai (scraper.py): on a successful AI call with
parseable JSON the processed offer is assembled; when the call raises or
json.loads fails, the function returns None (the offer is not processed
heuristically). -/
def process_offer_with_ai (now : String) (ai : AIOutcome StructuredFields)
    (offer : RawOffer) : Option ProcessedOffer :=
  match ai with
  | AIOutcome.ok sd =>
    some { offer_id := generate_offer_id offer, provider := offer.provider,
           source_url := offer.source_url, raw_text := offer.raw_text,
           discovered_at := offer.discovered_at, processed_at := now, fields := sd }
  | AIOutcome.parseError => none
  | AIOutcome.invokeError => none

/-- The processing loop of the scraper handler: each discovered offer is
processed and kept only when processing returned a value
(`if processed: processed_offers.append(processed)`). -/
def scraper_process (now : String) (ai : RawOffer → AIOutcome StructuredFields)
    (discovered : List RawOffer) : List ProcessedOffer :=
  discovered.filterMap (fun offer => process_offer_with_ai now (ai offer) offer)

/-- The user-profile fields read by the matcher (matcher.py). -/
structure UserProfile where
  user_id : String
  preferred_providers : List String
  target_certifications : List String
deriving DecidableEq, Repr

/-- The offer fields read by basic_match (matcher.py). -/
structure MOffer where
  provider : String
  cert_type : String
deriving DecidableEq, Repr

/-- The dictionary returned by basic_match / match_offer_to_user
(matcher.py). -/
structure MatchResult where
  is_match : Bool
  score : ℚ
  reasons : List String
deriving DecidableEq, Repr

/-- basic_match (matcher.py): base score 0.5, +0.3 for a preferred
provider, +0.4 when some target certification (lowercased) occurs as a
substring of the offer cert_type (lowercased); is_match compares the
accumulated score against 0.6 strictly, and the reported score is clamped
with min(score, 1.0). -/
def basic_match (offer : MOffer) (profile : UserProfile) : MatchResult :=
  let score0 : ℚ := 0.5
  let provPref : Bool := profile.preferred_providers.contains offer.provider
  let score1 := if provPref then score0 + 0.3 else score0
  let reasons1 : List String :=
    if provPref then ["Preferred provider: " ++ offer.provider] else []
  let certRel : Bool :=
    profile.target_certifications.any
      (fun cert => strContains (lowerStr offer.cert_type) (lowerStr cert))
  let score2 := if certRel then score1 + 0.4 else score1
  let reasons2 :=
    if certRel then reasons1 ++ ["Matches target certification"] else reasons1
  { is_match := decide (score2 > 0.6), score := min score2 1, reasons := reasons2 }

/-- match_offer_to_user (matcher.py): the parsed AI result is returned as
is; an invocation error or a json.JSONDecodeError falls back to
basic_match. -/
def match_offer_to_user (ai : AIOutcome MatchResult) (offer : MOffer)
    (profile : UserProfile) : MatchResult :=
  match ai with
  | AIOutcome.ok r => r
  | AIOutcome.parseError => basic_match offer profile
  | AIOutcome.invokeError => basic_match offer profile

/-- The pre-truncation matched-offer list of get_matched_offers
(matcher.py): every stored offer is matched and kept when is_match holds. -/
def matched_offers_list (ai : MOffer → AIOutcome MatchResult)
    (offers : List MOffer) (profile : UserProfile) : List (MOffer × MatchResult) :=
  (offers.map (fun o => (o, match_offer_to_user (ai o) o profile))).filter
    (fun p => p.2.is_match)

/-- The response body of get_matched_offers (matcher.py): matched offers
sorted by match score descending, truncated to the top 10, together with
total_matches = the full pre-truncation count. -/
def get_matched_offers_resp (ai : MOffer → AIOutcome MatchResult)
    (offers : List MOffer) (profile : UserProfile) :
    List (MOffer × MatchResult) × Nat :=
  let matched := matched_offers_list ai offers profile
  ((matched.mergeSort (fun a b => decide (b.2.score ≤ a.2.score))).take 10,
   matched.length)

/-- The deal dictionary built by format_search_results (web_discovery.py). -/
structure WDeal where
  offer_id : String
  provider : String
  certification_name : String
  title : String
  description : String
  source_url : String
  source_name : String
  discount_type : String
  eligibility : String
  confidence_score : ℚ
  discovered_at : String
  search_query : String
  deal_type : String
deriving DecidableEq, Repr

/-- The offer id built by format_search_results (web_discovery.py):
f-string bedrock_ then provider.lower() then _ then hash(link) % 10000.
The built-in
hash is salted per interpreter process, so it enters the model as an
explicit parameter. -/
def wdOfferId (pyhash : String → Nat) (provider link : String) : String :=
  "bedrock_" ++ lowerStr provider ++ "_" ++ toString (pyhash link % 10000)

/-- The merge step of the web_discovery handler: the per-query deal lists
are concatenated, sorted by confidence score descending, and the first 10
form the returned deals sequence; total_found is the length before
truncation. -/
def discovery_response (all_deals : List WDeal) : List WDeal × Nat :=
  ((all_deals.mergeSort (fun a b => decide (b.confidence_score ≤ a.confidence_score))).take 10,
   all_deals.length)

/-- Modelled from the amended claim wording for the matcher: score
0.5 + 0.3 [provider preferred] + 0.4 [some target certification, lowercased,
occurs as a substring of the offer cert_type, lowercased — one direction
only]; is_match holds iff the unclamped sum strictly exceeds 0.6; the score
is clamped to [0,1]; reasons list the fired bonuses in evaluation order. -/
def basic_match_amended_spec (offer : MOffer) (profile : UserProfile) : MatchResult :=
  let provBonus : Bool := profile.preferred_providers.contains offer.provider
  let certBonus : Bool :=
    profile.target_certifications.any
      (fun cert => strContains (lowerStr offer.cert_type) (lowerStr cert))
  let raw : ℚ := 0.5 + (if provBonus then 0.3 else 0) + (if certBonus then 0.4 else 0)
  { is_match := decide (raw > 0.6)
    score := min raw 1
    reasons :=
      (if provBonus then ["Preferred provider: " ++ offer.provider] else [])
        ++ (if certBonus then ["Matches target certification"] else []) }

/-- Scenario 1 raw text from the spec. -/
def scenario1_text : String :=
  "Get 30% off your AWS Solutions Architect exam, valid for students"

/-- Concrete offer for the matcher counterexample. -/
def c4offer : MOffer :=
  { provider := "AWS", cert_type := "Solutions Architect" }

/-- Concrete profile for the matcher counterexample: no preferred provider,
one target certification of which the offer cert_type is a proper
substring. -/
def c4profile : UserProfile :=
  { user_id := "u1"
    preferred_providers := []
    target_certifications := ["AWS Solutions Architect Professional"] }

/-- Concrete raw offer for the enrichment-failure counterexample. -/
def c3offer : RawOffer :=
  { provider := "AWS"
    source_url := "https://aws.amazon.com/training/events/"
    raw_text := "50% discount on certification exams"
    discovered_at := "2025-06-01T00:00:00" }

/-- A placeholder deal record used to exhibit truncation. -/
def dummyWDeal : WDeal :=
  { offer_id := "bedrock_aws_1", provider := "AWS", certification_name := "AWS Certification"
    title := "t", description := "d", source_url := "https://aws.amazon.com/x"
    source_name := "AWS Official", discount_type := "Special Offer"
    eligibility := "General Public", confidence_score := 0.5
    discovered_at := "2025-06-01T00:00:00", search_query := "q", deal_type := "General Deal" }

/-- Folding the keyword bonus accumulates 0.1 per matching keyword. -/
theorem foldl_keyword_bonus (P : String → Bool) (kws : List String) (init : ℚ) :
    kws.foldl (fun sc kw => if P kw then sc + 0.1 else sc) init
      = init + ((kws.filter P).length : ℚ) * 0.1 := by
  induction kws generalizing init with
  | nil => simp
  | cons a tl ih =>
    by_cases hp : P a
    · simp only [List.foldl_cons, List.filter_cons, hp, if_true, ih, List.length_cons]
      push_cast
      ring
    · simp only [List.foldl_cons, List.filter_cons, hp, Bool.false_eq_true, if_false, ih]

/-- C2.  The scraper generate_offer_id is a pure function of provider,
raw text and source URL (the discovery timestamp is ignored), but the
discovery-path offer id built from hash(link) % 10000 depends on
the ambient per-process string hash: two processes whose hashes differ on
the link produce different ids for identical inputs. -/
theorem C2_offer_id_determinism_vs_process_hash :
    (∃ h1 h2 : String → Nat,
        wdOfferId h1 "AWS" "https://aws.amazon.com/training/"
          ≠ wdOfferId h2 "AWS" "https://aws.amazon.com/training/")
    ∧ (∀ provider url text ts1 ts2 : String,
        generate_offer_id
            { provider := provider, source_url := url, raw_text := text,
              discovered_at := ts1 }
          = generate_offer_id
            { provider := provider, source_url := url, raw_text := text,
              discovered_at := ts2 }) :=
  ⟨⟨fun _ => 0, fun _ => 1, by decide⟩, fun _ _ _ _ _ => rfl⟩

/-- C3 counterexample: a raw offer whose AI enrichment returns unparseable
output is dropped from the processed output of the scraper run (the input list
is nonempty, the output is empty), contradicting "the item is neither
dropped from the output of the run. -/
theorem C3_enrichment_failure_drops_item :
    [c3offer] ≠ []
    ∧ scraper_process "2025-06-01T01:00:00" (fun _ => AIOutcome.parseError) [c3offer] = [] :=
  ⟨by decide, rfl⟩

/-- C3 (amended).  In the matcher, an AI invocation error or unparseable AI
output falls back to the heuristic basic_match result unchanged; in the
scraper, process_offer_with_ai returns None on either failure, so the
handler drops that item from the output of the run (the run continues with the
remaining items). -/
theorem C3_matcher_fallback_scraper_drop :
    (∀ (o : MOffer) (p : UserProfile),
        match_offer_to_user AIOutcome.invokeError o p = basic_match o p)
    ∧ (∀ (o : MOffer) (p : UserProfile),
        match_offer_to_user AIOutcome.parseError o p = basic_match o p)
    ∧ (∀ (now : String) (o : RawOffer),
        process_offer_with_ai now AIOutcome.invokeError o = none)
    ∧ (∀ (now : String) (o : RawOffer),
        process_offer_with_ai now AIOutcome.parseError o = none) :=
  ⟨fun _ _ => rfl, fun _ _ => rfl, fun _ _ => rfl, fun _ _ => rfl⟩

/-- C4 counterexample: the offer cert_type is a case-insensitive substring
of a target certification (the "vice versa" direction of the claim), yet
basic_match awards no bonus: the score stays 0.5 and is_match is false,
where the claim requires 0.9 and a match. -/
theorem C4_substring_direction_counterexample :
    strContains (lowerStr "AWS Solutions Architect Professional") (lowerStr c4offer.cert_type) = true
    ∧ c4profile.target_certifications = ["AWS Solutions Architect Professional"]
    ∧ c4profile.preferred_providers = []
    ∧ basic_match c4offer c4profile = { is_match := false, score := 0.5, reasons := [] } := by
  refine ⟨by decide, rfl, rfl, ?_⟩
  have h1 : c4profile.preferred_providers.contains c4offer.provider = false := by decide
  have h2 : c4profile.target_certifications.any
      (fun cert => strContains (lowerStr c4offer.cert_type) (lowerStr cert)) = false := by
    decide
  simp only [basic_match, h1, h2, Bool.false_eq_true, if_false, MatchResult.mk.injEq]
  refine ⟨?_, ?_, trivial⟩
  · simp only [decide_eq_false_iff_not]
    norm_num
  · exact min_eq_left (by norm_num)

/-- C4 (amended): the +0.4 bonus fires only when some target certification,
lowercased, occurs as a substring of the offer cert_type, lowercased — one
direction only; with that change the claimed scoring, strict 0.6 threshold,
clamp and reason list are exactly those of basic_match. -/
theorem C4_basic_match_one_directional (o : MOffer) (p : UserProfile) :
    basic_match o p = basic_match_amended_spec o p := by
  unfold basic_match basic_match_amended_spec
  by_cases h1 : p.preferred_providers.contains o.provider <;>
    by_cases h2 : p.target_certifications.any
        (fun cert => strContains (lowerStr o.cert_type) (lowerStr cert)) <;>
      simp only [h1, h2, Bool.false_eq_true, if_true, if_false, MatchResult.mk.injEq] <;>
      refine ⟨by norm_num, by norm_num, by simp⟩

/-- C5 counterexample: the scenario text contains none of the deal-type
keywords (challenge, voucher, free, discount, promotion), so the deal-type
classifier returns its default "General Deal", not the "Discount Deal"
(DiscountDeal) required by the claim. -/
theorem C5_scenario1_deal_type_counterexample :
    classify_deal_type scenario1_text "" = "General Deal"
    ∧ "General Deal" ≠ "Discount Deal" := by
  refine ⟨by decide, by decide⟩

/-- C5 (amended): on the scenario-1 raw text as title with empty snippet
and provider AWS, the extractor yields discount_type "30% Off", eligibility
"Students", a certification name containing "Solutions Architect", and
deal_type "General Deal" (the GeneralDeal default, since no deal-type
keyword occurs in the text). -/
theorem C5_scenario1_extraction :
    extract_discount_type scenario1_text "" = "30% Off"
    ∧ extract_eligibility scenario1_text "" = "Students"
    ∧ strContains (extract_certification_name scenario1_text "" "AWS") "Solutions Architect" = true
    ∧ classify_deal_type scenario1_text "" = "General Deal" := by
  refine ⟨by decide, by decide, by decide, by decide⟩

/-- C6 counterexample: a text containing a percent sign with no digit run
before it and containing "discount" — the claim requires "Discount", the
code returns "Special Offer" because the percent branch swallows the
remaining rules. -/
theorem C6_percent_branch_counterexample :
    strContains (lowerStr ("% discount" ++ " " ++ "")) "discount" = true
    ∧ findPct (lowerStr ("% discount" ++ " " ++ "")).data = none
    ∧ extract_discount_type "% discount" "" = "Special Offer"
    ∧ "Special Offer" ≠ "Discount" := by
  refine ⟨by decide, by decide, by decide, by decide⟩

/-- C6 (amended): the ordered rules hold as claimed except in the percent
case: free/complimentary, then voucher; then, if the text contains a
percent sign at all, a successful digits-percent search yields the captured
digits followed by the words percent Off, while a
failed one yields "Special Offer" directly (the discount and challenge
rules are skipped whenever a percent sign is present); otherwise discount,
then challenge, then the "Special Offer" default. -/
theorem C6_discount_type_rules (title snippet : String) :
    ((strContains (lowerStr (title ++ " " ++ snippet)) "free" = true
        ∨ strContains (lowerStr (title ++ " " ++ snippet)) "complimentary" = true) →
      extract_discount_type title snippet = "Free")
    ∧ (strContains (lowerStr (title ++ " " ++ snippet)) "free" = false →
       strContains (lowerStr (title ++ " " ++ snippet)) "complimentary" = false →
       strContains (lowerStr (title ++ " " ++ snippet)) "voucher" = true →
      extract_discount_type title snippet = "Voucher")
    ∧ (strContains (lowerStr (title ++ " " ++ snippet)) "free" = false →
       strContains (lowerStr (title ++ " " ++ snippet)) "complimentary" = false →
       strContains (lowerStr (title ++ " " ++ snippet)) "voucher" = false →
       strContains (lowerStr (title ++ " " ++ snippet)) "%" = true →
       ∀ ds : List Char,
         findPct (lowerStr (title ++ " " ++ snippet)).data = some ds →
      extract_discount_type title snippet = String.mk ds ++ "% Off")
    ∧ (strContains (lowerStr (title ++ " " ++ snippet)) "free" = false →
       strContains (lowerStr (title ++ " " ++ snippet)) "complimentary" = false →
       strContains (lowerStr (title ++ " " ++ snippet)) "voucher" = false →
       strContains (lowerStr (title ++ " " ++ snippet)) "%" = true →
       findPct (lowerStr (title ++ " " ++ snippet)).data = none →
      extract_discount_type title snippet = "Special Offer")
    ∧ (strContains (lowerStr (title ++ " " ++ snippet)) "free" = false →
       strContains (lowerStr (title ++ " " ++ snippet)) "complimentary" = false →
       strContains (lowerStr (title ++ " " ++ snippet)) "voucher" = false →
       strContains (lowerStr (title ++ " " ++ snippet)) "%" = false →
       strContains (lowerStr (title ++ " " ++ snippet)) "discount" = true →
      extract_discount_type title snippet = "Discount")
    ∧ (strContains (lowerStr (title ++ " " ++ snippet)) "free" = false →
       strContains (lowerStr (title ++ " " ++ snippet)) "complimentary" = false →
       strContains (lowerStr (title ++ " " ++ snippet)) "voucher" = false →
       strContains (lowerStr (title ++ " " ++ snippet)) "%" = false →
       strContains (lowerStr (title ++ " " ++ snippet)) "discount" = false →
       strContains (lowerStr (title ++ " " ++ snippet)) "challenge" = true →
      extract_discount_type title snippet = "Challenge Reward")
    ∧ (strContains (lowerStr (title ++ " " ++ snippet)) "free" = false →
       strContains (lowerStr (title ++ " " ++ snippet)) "complimentary" = false →
       strContains (lowerStr (title ++ " " ++ snippet)) "voucher" = false →
       strContains (lowerStr (title ++ " " ++ snippet)) "%" = false →
       strContains (lowerStr (title ++ " " ++ snippet)) "discount" = false →
       strContains (lowerStr (title ++ " " ++ snippet)) "challenge" = false →
      extract_discount_type title snippet = "Special Offer") := by
  refine ⟨?_, ?_, ?_, ?_, ?_, ?_, ?_⟩
  · rintro (h | h) <;> simp [extract_discount_type, h]
  · intro hf hc hv
    simp [extract_discount_type, hf, hc, hv]
  · intro hf hc hv hp ds hds
    simp [extract_discount_type, hf, hc, hv, hp, hds]
  · intro hf hc hv hp hds
    simp [extract_discount_type, hf, hc, hv, hp, hds]
  · intro hf hc hv hp hd
    simp [extract_discount_type, hf, hc, hv, hp, hd]
  · intro hf hc hv hp hd hch
    simp [extract_discount_type, hf, hc, hv, hp, hd, hch]
  · intro hf hc hv hp hd hch
    simp [extract_discount_type, hf, hc, hv, hp, hd, hch]

/-- C6 witness: the amended rules applied at concrete inputs — the
percent-without-digits fall-through and the first rule. -/
theorem C6_discount_type_rules_witness :
    extract_discount_type "% discount promo" "" = "Special Offer"
    ∧ extract_discount_type "free retake" "" = "Free" :=
  ⟨(C6_discount_type_rules "% discount promo" "").2.2.2.1
      (by decide) (by decide) (by decide) (by decide) (by decide),
   (C6_discount_type_rules "free retake" "").1 (Or.inl (by decide))⟩

/-- C7 counterexample: the confidence scorer calls urlparse with no
try/except, and urlparse raises ValueError (Invalid IPv6 URL) when the
scanned netloc has an unmatched square bracket, so at such a link the
program raises instead of returning a score — no value in [0, 1] is
produced, refuting the claim quantified over every URL.  The raise is the
none outcome of the model. -/
theorem C7_malformed_link_counterexample :
    netlocOf "http://[" = none
    ∧ calculate_confidence_score 2025 "AWS deal" "free voucher" "http://[" "AWS" = none :=
  ⟨rfl, rfl⟩

/-- C7 (amended).  On every link whose scanned netloc is bracket-free (so
urlparse succeeds, on every runtime), the confidence score is returned and
equals min of the additive sum — 0.3 for nonempty title and snippet, 0.3
for an official provider domain, 0.1 per distinct deal keyword present,
0.2 for the current year — and 1.0, and every returned score lies in
[0, 1]; on a link with an unmatched bracket the function instead raises
(see the counterexample). -/
theorem C7_confidence_score_formula (year : Nat) (title snippet link provider : String)
    (hb1 : (rawNetloc link).data.contains '[' = false)
    (hb2 : (rawNetloc link).data.contains ']' = false) :
    calculate_confidence_score year title snippet link provider
      = some (min ((if title ≠ "" ∧ snippet ≠ "" then (0.3 : ℚ) else 0)
          + (if (official_domains provider).any
                (fun official => strContains (lowerStr (rawNetloc link)) official)
             then (0.3 : ℚ) else 0)
          + ((conf_deal_keywords.filter
                (fun keyword => strContains (lowerStr (title ++ " " ++ snippet)) keyword)).length : ℚ)
              * 0.1
          + (if strContains (lowerStr (title ++ " " ++ snippet)) (toString year)
             then (0.2 : ℚ) else 0)) 1)
    ∧ (∀ q : ℚ, calculate_confidence_score year title snippet link provider = some q →
        0 ≤ q ∧ q ≤ 1) := by
  have hnet : netlocOf link = some (rawNetloc link) := by
    have hb1' := hb1
    have hb2' := hb2
    simp at hb1' hb2'
    simp [netlocOf, hb1', hb2']
  have hformula : calculate_confidence_score year title snippet link provider
      = some (min ((if title ≠ "" ∧ snippet ≠ "" then (0.3 : ℚ) else 0)
          + (if (official_domains provider).any
                (fun official => strContains (lowerStr (rawNetloc link)) official)
             then (0.3 : ℚ) else 0)
          + ((conf_deal_keywords.filter
                (fun keyword => strContains (lowerStr (title ++ " " ++ snippet)) keyword)).length : ℚ)
              * 0.1
          + (if strContains (lowerStr (title ++ " " ++ snippet)) (toString year)
             then (0.2 : ℚ) else 0)) 1) := by
    simp only [calculate_confidence_score, hnet]
    rw [foldl_keyword_bonus
      (fun keyword => strContains (lowerStr (title ++ " " ++ snippet)) keyword)
      conf_deal_keywords]
    by_cases h1 : title ≠ "" ∧ snippet ≠ "" <;>
      by_cases h2 : (official_domains provider).any
          (fun official => strContains (lowerStr (rawNetloc link)) official) <;>
        by_cases h4 : strContains (lowerStr (title ++ " " ++ snippet)) (toString year) <;>
          simp only [h1, h2, h4, if_true, if_false, Bool.false_eq_true] <;>
            (refine congrArg some ?_; congr 1; ring_nf)
  refine ⟨hformula, ?_⟩
  intro q hq
  rw [hformula] at hq
  injection hq with hq
  subst hq
  constructor
  · refine le_min ?_ (by norm_num)
    have hk : (0 : ℚ) ≤ ((conf_deal_keywords.filter
        (fun keyword => strContains (lowerStr (title ++ " " ++ snippet)) keyword)).length : ℚ)
          * 0.1 := by positivity
    split_ifs <;> nlinarith
  · exact min_le_right _ _

/-- C7 witness: at a concrete well-formed link the score is returned and
equals 0.3 (nonempty title and snippet; no official-domain, keyword or
year bonus), a value in [0, 1]. -/
theorem C7_confidence_score_formula_witness :
    calculate_confidence_score 2025 "deal" "promo" "https://example.org/x" "AWS"
      = some (0.3 : ℚ)
    ∧ (0 : ℚ) ≤ 0.3 ∧ (0.3 : ℚ) ≤ 1 := by
  have h := C7_confidence_score_formula 2025 "deal" "promo" "https://example.org/x" "AWS"
    (by decide) (by decide)
  have hc1 : (("deal" : String) ≠ "" ∧ ("promo" : String) ≠ "") := by decide
  have hc2 : (official_domains "AWS").any
      (fun official => strContains (lowerStr (rawNetloc "https://example.org/x")) official)
        = false := by decide
  have hc3 : conf_deal_keywords.filter
      (fun keyword => strContains (lowerStr ("deal" ++ " " ++ "promo")) keyword) = [] := by
    decide
  have hc4 : strContains (lowerStr ("deal" ++ " " ++ "promo")) (toString 2025) = false := by
    decide
  refine ⟨?_, by norm_num, by norm_num⟩
  rw [h.1, hc3]
  rw [if_pos hc1]
  simp only [hc2, hc4, Bool.false_eq_true, if_false, List.length_nil, Nat.cast_zero,
    zero_mul, add_zero]
  norm_num [min_def]

/-- C8 counterexample: on a URL whose scanned netloc has an unmatched
bracket, urlparse raises inside extract_source_name and the bare except
branch returns the fixed label "External Source" — not the title-cased
www-stripped domain label the claim requires for every domain outside the
table. -/
theorem C8_malformed_url_counterexample :
    extract_source_name "http://[" = "External Source"
    ∧ pyTitle (strReplace (lowerStr (rawNetloc "http://[")) "www." "") = "["
    ∧ "External Source" ≠ "[" :=
  ⟨rfl, by decide, by decide⟩

/-- C8 (amended).  Every field-extraction operation is total, also on
malformed input: when urlparse raises, extract_source_name returns the
fixed label "External Source" from its except branch instead of
propagating the exception; when no pattern fires, each operation falls
through to its documented default — the provider certification fallback,
SpecialOffer, GeneralPublic, GeneralDeal, and, on bracket-free netlocs
(where urlparse succeeds), the title-cased www-stripped domain label. -/
theorem C8_extraction_totality_defaults (title snippet provider url : String) :
    ((cert_patterns provider).findSome?
        (fun p => runCertPat p (title ++ " " ++ snippet)) = none →
      extract_certification_name title snippet provider = provider ++ " Certification")
    ∧ (strContains (lowerStr (title ++ " " ++ snippet)) "free" = false →
       strContains (lowerStr (title ++ " " ++ snippet)) "complimentary" = false →
       strContains (lowerStr (title ++ " " ++ snippet)) "voucher" = false →
       strContains (lowerStr (title ++ " " ++ snippet)) "%" = false →
       strContains (lowerStr (title ++ " " ++ snippet)) "discount" = false →
       strContains (lowerStr (title ++ " " ++ snippet)) "challenge" = false →
      extract_discount_type title snippet = "Special Offer")
    ∧ (strContains (lowerStr (title ++ " " ++ snippet)) "student" = false →
       strContains (lowerStr (title ++ " " ++ snippet)) "employee" = false →
       strContains (lowerStr (title ++ " " ++ snippet)) "partner" = false →
       strContains (lowerStr (title ++ " " ++ snippet)) "challenge" = false →
      extract_eligibility title snippet = "General Public")
    ∧ (strContains (lowerStr (title ++ " " ++ snippet)) "challenge" = false →
       strContains (lowerStr (title ++ " " ++ snippet)) "voucher" = false →
       strContains (lowerStr (title ++ " " ++ snippet)) "free" = false →
       strContains (lowerStr (title ++ " " ++ snippet)) "discount" = false →
       strContains (lowerStr (title ++ " " ++ snippet)) "promotion" = false →
      classify_deal_type title snippet = "General Deal")
    ∧ ((rawNetloc url).data.contains '[' = false →
       (rawNetloc url).data.contains ']' = false →
       strContains (lowerStr (rawNetloc url)) "aws.amazon.com" = false →
       strContains (lowerStr (rawNetloc url)) "awscloud.com" = false →
       strContains (lowerStr (rawNetloc url)) "microsoft.com" = false →
       strContains (lowerStr (rawNetloc url)) "azure.com" = false →
       strContains (lowerStr (rawNetloc url)) "cloud.google.com" = false →
       strContains (lowerStr (rawNetloc url)) "databricks.com" = false →
       strContains (lowerStr (rawNetloc url)) "salesforce.com" = false →
       strContains (lowerStr (rawNetloc url)) "trailhead" = false →
      extract_source_name url = pyTitle (strReplace (lowerStr (rawNetloc url)) "www." ""))
    ∧ (netlocOf url = none → extract_source_name url = "External Source") := by
  refine ⟨?_, ?_, ?_, ?_, ?_, ?_⟩
  · intro h
    simp [extract_certification_name, h]
  · intro hf hc hv hp hd hch
    simp [extract_discount_type, hf, hc, hv, hp, hd, hch]
  · intro hs he hp hch
    simp [extract_eligibility, hs, he, hp, hch]
  · intro hch hv hf hd hpr
    simp [classify_deal_type, hch, hv, hf, hd, hpr]
  · intro hb1 hb2 h1 h2 h3 h4 h5 h6 h7 h8
    have hnet : netlocOf url = some (rawNetloc url) := by
      have hb1' := hb1
      have hb2' := hb2
      simp at hb1' hb2'
      simp [netlocOf, hb1', hb2']
    simp [extract_source_name, hnet, h1, h2, h3, h4, h5, h6, h7, h8]
  · intro h
    simp [extract_source_name, h]

/-- C8 witness: empty title and snippet fail every pattern, a non-tabled
bracket-free domain takes the derived fallback label, and a
bracket-malformed URL takes the except-branch label. -/
theorem C8_extraction_totality_defaults_witness :
    extract_certification_name "" "" "AWS" = "AWS Certification"
    ∧ extract_discount_type "" "" = "Special Offer"
    ∧ extract_eligibility "" "" = "General Public"
    ∧ classify_deal_type "" "" = "General Deal"
    ∧ extract_source_name "https://example.org/deals" = "Example.Org"
    ∧ extract_source_name "http://]bad/" = "External Source" :=
  ⟨(C8_extraction_totality_defaults "" "" "AWS" "https://example.org/deals").1 (by decide),
   (C8_extraction_totality_defaults "" "" "AWS" "https://example.org/deals").2.1
     (by decide) (by decide) (by decide) (by decide) (by decide) (by decide),
   (C8_extraction_totality_defaults "" "" "AWS" "https://example.org/deals").2.2.1
     (by decide) (by decide) (by decide) (by decide),
   (C8_extraction_totality_defaults "" "" "AWS" "https://example.org/deals").2.2.2.1
     (by decide) (by decide) (by decide) (by decide) (by decide),
   ((C8_extraction_totality_defaults "" "" "AWS" "https://example.org/deals").2.2.2.2.1
     (by decide) (by decide) (by decide) (by decide) (by decide) (by decide)
     (by decide) (by decide) (by decide) (by decide)).trans (by decide),
   (C8_extraction_totality_defaults "" "" "AWS" "http://]bad/").2.2.2.2.2 (by decide)⟩

/-- C9.  Any title/snippet pair whose lowercased combined text contains
"voucher" is classified as a discovery candidate by has_deal_indicators. -/
theorem C9_voucher_is_candidate (title snippet : String)
    (h : strContains (lowerStr (title ++ " " ++ snippet)) "voucher" = true) :
    has_deal_indicators title snippet = true := by
  have hmem : "voucher" ∈ deal_keywords := by decide
  simp only [has_deal_indicators, List.any_eq_true]
  exact ⟨"voucher", hmem, h⟩

/-- C9 witness: a concrete snippet containing VOUCHER is a candidate. -/
theorem C9_voucher_is_candidate_witness :
    has_deal_indicators "AWS Exam VOUCHER promo" "" = true :=
  C9_voucher_is_candidate "AWS Exam VOUCHER promo" "" (by decide)

/-- C10.  The discovery response truncates the sorted deal sequence to at
most 10 entries while total_found counts all merged candidates, and the
matching response truncates to at most 10 while total_matches counts all
pre-truncation matches; both totals can strictly exceed the returned
length, exhibited on 11-element inputs. -/
theorem C10_truncation_and_totals :
    (∀ all_deals : List WDeal,
        (discovery_response all_deals).1.length ≤ 10
        ∧ (discovery_response all_deals).2 = all_deals.length)
    ∧ (∀ (ai : MOffer → AIOutcome MatchResult) (offers : List MOffer) (p : UserProfile),
        (get_matched_offers_resp ai offers p).1.length ≤ 10
        ∧ (get_matched_offers_resp ai offers p).2
            = (matched_offers_list ai offers p).length)
    ∧ (∃ ds : List WDeal,
        (discovery_response ds).2 > (discovery_response ds).1.length)
    ∧ (∃ (ai : MOffer → AIOutcome MatchResult) (offers : List MOffer) (p : UserProfile),
        (get_matched_offers_resp ai offers p).2
          > (get_matched_offers_resp ai offers p).1.length) := by
  refine ⟨?_, ?_, ?_, ?_⟩
  · intro all_deals
    constructor
    · simp only [discovery_response, List.length_take]
      omega
    · rfl
  · intro ai offers p
    constructor
    · simp only [get_matched_offers_resp, List.length_take]
      omega
    · rfl
  · refine ⟨List.replicate 11 dummyWDeal, ?_⟩
    simp [discovery_response, List.length_take, List.length_mergeSort]
  · refine ⟨fun _ => AIOutcome.ok { is_match := true, score := 1, reasons := [] },
      List.replicate 11 { provider := "AWS", cert_type := "" }, ⟨"u", [], []⟩, ?_⟩
    have hmatched : matched_offers_list
        (fun _ => AIOutcome.ok { is_match := true, score := 1, reasons := [] })
        (List.replicate 11 { provider := "AWS", cert_type := "" }) ⟨"u", [], []⟩
        = List.replicate 11
            ({ provider := "AWS", cert_type := "" },
             ({ is_match := true, score := 1, reasons := [] } : MatchResult)) := by
      simp [matched_offers_list, List.map_replicate, List.filter_replicate,
        match_offer_to_user]
    simp only [get_matched_offers_resp, gt_iff_lt]
    rw [hmatched]
    simp only [List.length_take, List.length_mergeSort, List.length_replicate]
    omega
